import Mathlib

/-!
Verification development for a reduced dwm-style window manager
(single C source file `dwm.c`).  The definitions below are shallow
embeddings of the corresponding C functions; machine integers are
modelled as `Nat`/`Int` (all quantities involved stay small and
non-negative in every statement proved here, so two's-complement
wraparound never occurs), `float` quantities (`mfact`) as `ℚ`, and
fallible/early-return code as explicit result values.
-/

namespace Dwm

/-- Modelled from the spec: the `tags` array lives in `config.h`, which is
not part of the source tree; the spec fixes nine configured tags
("`tag(1<<2)` with 9 configured tags"), so `LENGTH(tags) = 9`. -/
def numTags : Nat := 9

/-- `TAGMASK = (1 << LENGTH(tags)) - 1` from `dwm.c`. -/
def TAGMASK : Nat := (1 <<< numTags) - 1

/-- The per-monitor tag-view state: `seltags` (the C `unsigned int`
`seltags`, always 0 or 1, modelled as `Bool` with `false ↔ 0`) and the
two slots of `tagset[2]`. -/
structure TagState where
  seltags : Bool
  tagset0 : Nat
  tagset1 : Nat
deriving DecidableEq, Repr

/-- `tagset[seltags]`, the live view mask. -/
def TagState.cur (s : TagState) : Nat :=
  if s.seltags then s.tagset1 else s.tagset0

/-- Assignment `tagset[seltags] = v`. -/
def TagState.setCur (s : TagState) (v : Nat) : TagState :=
  if s.seltags then { s with tagset1 := v } else { s with tagset0 := v }

/-- `createmon` (dwm.c): `mons->tagset[0] = mons->tagset[1] = 1;` with
`calloc` zero-initialising `seltags`. -/
def createmonTagState : TagState :=
  { seltags := false, tagset0 := 1, tagset1 := 1 }

/-- `view` (dwm.c): early return when the masked argument equals the
current view; otherwise `seltags ^= 1` and, when the masked argument is
nonzero, `tagset[seltags] = arg->ui & TAGMASK`.  (The trailing
`focus(NULL); arrange(selmon);` calls do not touch the tag state.) -/
def view (ui : Nat) (s : TagState) : TagState :=
  if ui &&& TAGMASK = s.cur then s
  else
    let s1 := { s with seltags := !s.seltags }
    if ui &&& TAGMASK ≠ 0 then s1.setCur (ui &&& TAGMASK) else s1

/-- `toggleview` (dwm.c): `newtagset = tagset[seltags] ^ (arg->ui & TAGMASK)`,
stored only when nonzero. -/
def toggleview (ui : Nat) (s : TagState) : TagState :=
  let newtagset := s.cur ^^^ (ui &&& TAGMASK)
  if newtagset ≠ 0 then s.setCur newtagset else s

/-- A completed tag-view command: `view(arg)` or `toggleview(arg)`. -/
inductive TagCmd where
  | view (ui : Nat)
  | toggleview (ui : Nat)
deriving DecidableEq, Repr

def applyTagCmd (c : TagCmd) (s : TagState) : TagState :=
  match c with
  | .view ui => view ui s
  | .toggleview ui => toggleview ui s

def runTagCmds (l : List TagCmd) (s : TagState) : TagState :=
  l.foldl (fun t c => applyTagCmd c t) s

/-- Both slots of `tagset` are nonzero. -/
def bothNonzero (s : TagState) : Prop :=
  s.tagset0 ≠ 0 ∧ s.tagset1 ≠ 0

theorem bothNonzero_setCur (s : TagState) (v : Nat) (hv : v ≠ 0)
    (h : bothNonzero s) : bothNonzero (s.setCur v) := by
  obtain ⟨h0, h1⟩ := h
  cases hs : s.seltags <;> simp [TagState.setCur, bothNonzero, hs, h0, h1, hv]

theorem bothNonzero_applyTagCmd (c : TagCmd) (s : TagState)
    (h : bothNonzero s) : bothNonzero (applyTagCmd c s) := by
  obtain ⟨h0, h1⟩ := h
  cases c with
  | view ui =>
    simp only [applyTagCmd, view]
    split
    · exact ⟨h0, h1⟩
    · split
      · exact bothNonzero_setCur _ _ (by assumption) ⟨h0, h1⟩
      · exact ⟨h0, h1⟩
  | toggleview ui =>
    simp only [applyTagCmd, toggleview]
    split
    · exact bothNonzero_setCur _ _ (by assumption) ⟨h0, h1⟩
    · exact ⟨h0, h1⟩

theorem bothNonzero_runTagCmds (l : List TagCmd) (s : TagState)
    (h : bothNonzero s) : bothNonzero (runTagCmds l s) := by
  induction l generalizing s with
  | nil => exact h
  | cons c cs ih => exact ih _ (bothNonzero_applyTagCmd c s h)

theorem cur_ne_zero_of_bothNonzero (s : TagState) (h : bothNonzero s) :
    s.cur ≠ 0 := by
  cases hs : s.seltags <;> simp [TagState.cur, hs, h.1, h.2]

/-- C1: after `createmon` (both tagset slots initialised to 1) and any
sequence of completed `view` / `toggleview` commands, the live view mask
`tagset[seltags]` is nonzero: `view` with a nonzero masked argument stores
that nonzero mask, `view(0)` only flips `seltags`, and `toggleview` leaves
the tagset unchanged whenever the XOR result would be 0. -/
theorem tagset_sel_nonzero_invariant (l : List TagCmd) :
    (runTagCmds l createmonTagState).cur ≠ 0 :=
  cur_ne_zero_of_bothNonzero _
    (bothNonzero_runTagCmds l createmonTagState (by constructor <;> simp [createmonTagState]))

theorem view_set (ui : Nat) (s : TagState) (hne : ui &&& TAGMASK ≠ s.cur)
    (h0 : ui &&& TAGMASK ≠ 0) :
    view ui s = TagState.setCur { s with seltags := !s.seltags } (ui &&& TAGMASK) := by
  simp only [view, if_neg hne, if_pos h0]

theorem view_zero_flip (s : TagState) (h : s.cur ≠ 0) :
    view 0 s = { s with seltags := !s.seltags } := by
  have hz : (0 : Nat) &&& TAGMASK = 0 := Nat.zero_and _
  simp only [view, hz]
  rw [if_neg (fun hc => h hc.symm), if_neg (by simp)]

/-- C3 counterexample: with the freshly created monitor (viewing mask 1),
`A = 2` and `B = 4` are nonzero under `TAGMASK`, distinct from each other
and from the current view, yet `view 2; view 4; view 0` leaves the monitor
viewing mask 2 (= A), not mask 4 (= B) as the claim states. -/
theorem view_ABzero_claim_cex :
    (2 &&& TAGMASK ≠ 0) ∧ (4 &&& TAGMASK ≠ 0) ∧
    (2 &&& TAGMASK ≠ 4 &&& TAGMASK) ∧
    (2 &&& TAGMASK ≠ createmonTagState.cur) ∧
    (4 &&& TAGMASK ≠ createmonTagState.cur) ∧
    (view 0 (view 4 (view 2 createmonTagState))).cur = 2 ∧
    (2 : Nat) ≠ 4 &&& TAGMASK := by
  decide

/-- C3 (amended): for tag masks `A`, `B` nonzero under `TAGMASK`, distinct
from each other and from the current view, `view(A); view(B); view(0)`
leaves the monitor viewing `A` (the view current between the first and
second commands): `view(0)` flips `seltags` back to the slot that `view(A)`
wrote, without assigning a new mask. -/
theorem view_ABzero_returns_to_A (s : TagState) (A B : Nat)
    (hA : A &&& TAGMASK ≠ 0) (hB : B &&& TAGMASK ≠ 0)
    (hAB : A &&& TAGMASK ≠ B &&& TAGMASK)
    (hAcur : A &&& TAGMASK ≠ s.cur) :
    (view 0 (view B (view A s))).cur = A &&& TAGMASK := by
  rw [view_set A s hAcur hA]
  obtain ⟨st, t0, t1⟩ := s
  cases st with
  | false =>
    have h1 : TagState.setCur { seltags := !false, tagset0 := t0, tagset1 := t1 }
        (A &&& TAGMASK) = ⟨true, t0, A &&& TAGMASK⟩ := by
      simp [TagState.setCur]
    rw [h1]
    have hBc : B &&& TAGMASK ≠ TagState.cur ⟨true, t0, A &&& TAGMASK⟩ := by
      simpa [TagState.cur] using fun hc => hAB hc.symm
    rw [view_set B _ hBc hB]
    have h2 : TagState.setCur { (⟨true, t0, A &&& TAGMASK⟩ : TagState) with
        seltags := !true } (B &&& TAGMASK) = ⟨false, B &&& TAGMASK, A &&& TAGMASK⟩ := by
      simp [TagState.setCur]
    rw [h2]
    rw [view_zero_flip _ (by simpa [TagState.cur] using hB)]
    simp [TagState.cur]
  | true =>
    have h1 : TagState.setCur { seltags := !true, tagset0 := t0, tagset1 := t1 }
        (A &&& TAGMASK) = ⟨false, A &&& TAGMASK, t1⟩ := by
      simp [TagState.setCur]
    rw [h1]
    have hBc : B &&& TAGMASK ≠ TagState.cur ⟨false, A &&& TAGMASK, t1⟩ := by
      simpa [TagState.cur] using fun hc => hAB hc.symm
    rw [view_set B _ hBc hB]
    have h2 : TagState.setCur { (⟨false, A &&& TAGMASK, t1⟩ : TagState) with
        seltags := !false } (B &&& TAGMASK) = ⟨true, A &&& TAGMASK, B &&& TAGMASK⟩ := by
      simp [TagState.setCur]
    rw [h2]
    rw [view_zero_flip _ (by simpa [TagState.cur] using hB)]
    simp [TagState.cur]

/-- C3 witness: the amended round-trip evaluated on the fresh monitor with
`A = 2`, `B = 4`. -/
theorem view_ABzero_returns_to_A_witness :
    (view 0 (view 4 (view 2 createmonTagState))).cur = 2 &&& TAGMASK :=
  view_ABzero_returns_to_A createmonTagState 2 4 (by decide) (by decide)
    (by decide) (by decide)

/-- `toggletag` (dwm.c) acting on the selected client's tag mask:
`newtags = sel->tags ^ (arg->ui & TAGMASK)`, stored only when nonzero. -/
def toggletagTags (ui : Nat) (tags : Nat) : Nat :=
  let newtags := tags ^^^ (ui &&& TAGMASK)
  if newtags ≠ 0 then newtags else tags

/-- `toggletag` (dwm.c) including the `if (!selmon->sel) return;` guard:
the selected client's tag mask, when a client is selected. -/
def toggletag (ui : Nat) (sel : Option Nat) : Option Nat :=
  match sel with
  | none => none
  | some tags => some (toggletagTags ui tags)

/-- C8: on a selected client, `toggletag t` twice is the identity on the
client's tags, provided neither application is rejected by the empty-mask
rule (an application whose XOR result would be 0 leaves the tags
unchanged). -/
theorem toggletag_twice_identity (ui tags : Nat)
    (h1 : tags ^^^ (ui &&& TAGMASK) ≠ 0)
    (h2 : toggletagTags ui tags ^^^ (ui &&& TAGMASK) ≠ 0) :
    toggletag ui (toggletag ui (some tags)) = some tags := by
  simp only [toggletag]
  congr 1
  have e1 : toggletagTags ui tags = tags ^^^ (ui &&& TAGMASK) := by
    simp only [toggletagTags, if_pos h1]
  rw [e1] at h2 ⊢
  rw [Nat.xor_assoc, Nat.xor_self, Nat.xor_zero] at h2
  simp only [toggletagTags, Nat.xor_assoc, Nat.xor_self, Nat.xor_zero]
  rw [if_pos h2]

/-- C8 witness: tags `1`, toggled mask `2`: `1 → 3 → 1`. -/
theorem toggletag_twice_identity_witness :
    toggletag 2 (toggletag 2 (some 1)) = some 1 :=
  toggletag_twice_identity 2 1 (by decide) (by decide)

/-- `setmfact` (dwm.c): `f = arg->f < 1.0 ? arg->f + selmon->mfact
: arg->f - 1.0; if (f < 0.1 || f > 0.9) return; selmon->mfact = f;
arrange(selmon);`.  The `float` arithmetic is modelled over `ℚ`; the
result pairs the new `mfact` with whether `arrange` ran. -/
def setmfact (argf : ℚ) (mfact : ℚ) : ℚ × Bool :=
  let f := if argf < 1 then argf + mfact else argf - 1
  if f < 1/10 ∨ f > 9/10 then (mfact, false) else (f, true)

/-- C4 counterexample: the argument `1.95` is absolute (`f = 0.95`),
and `0.95` lies inside the claim's bounds `[0.05, 0.95]`, so the claim
says it is stored; the code rejects it (its bounds are `0.1`/`0.9`),
leaving `mfact = 0.55` unchanged with no re-arrange. -/
theorem setmfact_claim_cex :
    setmfact (39/20) (11/20) = ((11/20 : ℚ), false) ∧
    ¬ ((39 : ℚ)/20 < 1) ∧ (39 : ℚ)/20 - 1 = 19/20 ∧
    (1 : ℚ)/20 ≤ 19/20 ∧ (19 : ℚ)/20 ≤ 19/20 ∧
    ((11 : ℚ)/20 ≠ 19/20) := by
  refine ⟨?_, by norm_num, by norm_num, by norm_num, by norm_num, by norm_num⟩
  simp only [setmfact]
  norm_num

/-- C4 (amended): `setmfact` interprets an argument ≥ 1.0 as absolute
(using `delta - 1.0`) and any smaller argument as relative (added to the
current `mfact`); a result below 0.1 or above 0.9 is rejected, leaving
`mfact` unchanged and triggering no re-arrange, while any result in
`[0.1, 0.9]` is stored (with a re-arrange). -/
theorem setmfact_bounds (argf mfact : ℚ) :
    (argf < 1 →
      ((argf + mfact < 1/10 ∨ 9/10 < argf + mfact) →
        setmfact argf mfact = (mfact, false)) ∧
      (1/10 ≤ argf + mfact → argf + mfact ≤ 9/10 →
        setmfact argf mfact = (argf + mfact, true))) ∧
    (1 ≤ argf →
      ((argf - 1 < 1/10 ∨ 9/10 < argf - 1) →
        setmfact argf mfact = (mfact, false)) ∧
      (1/10 ≤ argf - 1 → argf - 1 ≤ 9/10 →
        setmfact argf mfact = (argf - 1, true))) := by
  constructor
  · intro hlt
    constructor
    · intro hout
      simp only [setmfact, if_pos hlt]
      rw [if_pos (by rcases hout with h | h; exact Or.inl h; exact Or.inr h)]
    · intro hlo hhi
      simp only [setmfact, if_pos hlt]
      rw [if_neg (by push_neg; exact ⟨hlo, hhi⟩)]
  · intro hge
    have hnlt : ¬ argf < 1 := not_lt.mpr hge
    constructor
    · intro hout
      simp only [setmfact, if_neg hnlt]
      rw [if_pos (by rcases hout with h | h; exact Or.inl h; exact Or.inr h)]
    · intro hlo hhi
      simp only [setmfact, if_neg hnlt]
      rw [if_neg (by push_neg; exact ⟨hlo, hhi⟩)]

/-- C4 witness: relative argument `0.05` on `mfact = 0.55` is stored as
`0.6`; absolute argument `1.95` (= `0.95`) is rejected. -/
theorem setmfact_bounds_witness :
    setmfact (1/20) (11/20) = ((3/5 : ℚ), true) ∧
    setmfact (39/20) (11/20) = ((11/20 : ℚ), false) := by
  constructor
  · have h := (setmfact_bounds (1/20) (11/20)).1 (by norm_num)
    have := h.2 (by norm_num) (by norm_num)
    rw [this]; norm_num
  · exact ((setmfact_bounds (39/20) (11/20)).2 (by norm_num)).1 (by norm_num)

/-! X11 error codes (X.h) and request opcodes (Xproto.h) used by
`xerror`. -/

def BadWindow : Nat := 3
def BadMatch : Nat := 8
def BadDrawable : Nat := 9
def BadAccess : Nat := 10
def X_ConfigureWindow : Nat := 12
def X_GrabButton : Nat := 28
def X_GrabKey : Nat := 33
def X_SetInputFocus : Nat := 42
def X_CopyArea : Nat := 62
def X_PolySegment : Nat := 66
def X_PolyFillRectangle : Nat := 70
def X_PolyText8 : Nat := 74

/-- What the permanent error handler does: return 0 (swallow), or print
the "dwm: fatal error: request code=%d, error code=%d" line and call
`xerrorxlib` (the underlying library's default handler). -/
inductive XErrorResult where
  | swallowed
  | logAndDelegate
deriving DecidableEq, Repr

/-- `xerror` (dwm.c): the permanent X error handler, as a function of the
event's `request_code` and `error_code`. -/
def xerror (requestCode errorCode : Nat) : XErrorResult :=
  if errorCode = BadWindow
      ∨ (requestCode = X_SetInputFocus ∧ errorCode = BadMatch)
      ∨ (requestCode = X_PolyText8 ∧ errorCode = BadDrawable)
      ∨ (requestCode = X_PolyFillRectangle ∧ errorCode = BadDrawable)
      ∨ (requestCode = X_PolySegment ∧ errorCode = BadDrawable)
      ∨ (requestCode = X_ConfigureWindow ∧ errorCode = BadMatch)
      ∨ (requestCode = X_GrabButton ∧ errorCode = BadAccess)
      ∨ (requestCode = X_GrabKey ∧ errorCode = BadAccess)
      ∨ (requestCode = X_CopyArea ∧ errorCode = BadDrawable)
  then .swallowed
  else .logAndDelegate

/-- C6: the permanent X error handler swallows exactly `BadWindow` on any
request, `BadMatch` on `SetInputFocus`/`ConfigureWindow`, `BadDrawable` on
`PolyText8`/`PolyFillRectangle`/`PolySegment`/`CopyArea`, and `BadAccess`
on `GrabButton`/`GrabKey`; every other error is logged and delegated to
the underlying library's default handler. -/
theorem xerror_allowlist (requestCode errorCode : Nat) :
    (xerror requestCode errorCode = .swallowed ↔
      errorCode = BadWindow ∨
      (errorCode = BadMatch ∧
        (requestCode = X_SetInputFocus ∨ requestCode = X_ConfigureWindow)) ∨
      (errorCode = BadDrawable ∧
        (requestCode = X_PolyText8 ∨ requestCode = X_PolyFillRectangle ∨
         requestCode = X_PolySegment ∨ requestCode = X_CopyArea)) ∨
      (errorCode = BadAccess ∧
        (requestCode = X_GrabButton ∨ requestCode = X_GrabKey))) ∧
    (xerror requestCode errorCode ≠ .swallowed ↔
      xerror requestCode errorCode = .logAndDelegate) := by
  constructor
  · unfold xerror
    split
    · rename_i hcond
      refine ⟨fun hc => ?_, fun hrhs => rfl⟩
      rcases hcond with h | ⟨h1, h2⟩ | ⟨h1, h2⟩ | ⟨h1, h2⟩ | ⟨h1, h2⟩ |
        ⟨h1, h2⟩ | ⟨h1, h2⟩ | ⟨h1, h2⟩ | ⟨h1, h2⟩
      · exact Or.inl h
      · exact Or.inr (Or.inl ⟨h2, Or.inl h1⟩)
      · exact Or.inr (Or.inr (Or.inl ⟨h2, Or.inl h1⟩))
      · exact Or.inr (Or.inr (Or.inl ⟨h2, Or.inr (Or.inl h1)⟩))
      · exact Or.inr (Or.inr (Or.inl ⟨h2, Or.inr (Or.inr (Or.inl h1))⟩))
      · exact Or.inr (Or.inl ⟨h2, Or.inr h1⟩)
      · exact Or.inr (Or.inr (Or.inr ⟨h2, Or.inl h1⟩))
      · exact Or.inr (Or.inr (Or.inr ⟨h2, Or.inr h1⟩))
      · exact Or.inr (Or.inr (Or.inl ⟨h2, Or.inr (Or.inr (Or.inr h1))⟩))
    · rename_i hcond
      refine ⟨fun hc => absurd hc (by simp), fun hrhs => absurd ?_ hcond⟩
      rcases hrhs with h | ⟨he, hr | hr⟩ | ⟨he, hr | hr | hr | hr⟩ | ⟨he, hr | hr⟩
      · exact Or.inl h
      · exact Or.inr (Or.inl ⟨hr, he⟩)
      · exact Or.inr (Or.inr (Or.inr (Or.inr (Or.inr (Or.inl ⟨hr, he⟩)))))
      · exact Or.inr (Or.inr (Or.inl ⟨hr, he⟩))
      · exact Or.inr (Or.inr (Or.inr (Or.inl ⟨hr, he⟩)))
      · exact Or.inr (Or.inr (Or.inr (Or.inr (Or.inl ⟨hr, he⟩))))
      · exact Or.inr (Or.inr (Or.inr (Or.inr (Or.inr (Or.inr (Or.inr (Or.inr ⟨hr, he⟩)))))))
      · exact Or.inr (Or.inr (Or.inr (Or.inr (Or.inr (Or.inr (Or.inl ⟨hr, he⟩))))))
      · exact Or.inr (Or.inr (Or.inr (Or.inr (Or.inr (Or.inr (Or.inr (Or.inl ⟨hr, he⟩)))))))
  · unfold xerror
    split <;> simp

/-- The observable action of `killclient`. -/
inductive KillAction where
  | noop
  | sendDeleteMessage (win : Nat)
  | xKillClient (win : Nat)
deriving DecidableEq, Repr

/-- A client as `killclient` sees it: its window and whether its
`WM_PROTOCOLS` property lists `WM_DELETE_WINDOW`. -/
structure KClient where
  win : Nat
  supportsDelete : Bool
deriving DecidableEq, Repr

/-- `killclient` (dwm.c): `if (!selmon->sel) return;
XKillClient(dpy, selmon->sel->win);` — it never inspects
`WM_PROTOCOLS`. -/
def killclient (sel : Option KClient) : KillAction :=
  match sel with
  | none => .noop
  | some c => .xKillClient c.win

/-- C7 counterexample: a selected client that lists `WM_DELETE_WINDOW`
in its `WM_PROTOCOLS` still gets `XKillClient`, not the
`WM_DELETE_WINDOW` `ClientMessage` the claim requires. -/
theorem killclient_claim_cex :
    killclient (some ⟨7, true⟩) = KillAction.xKillClient 7 ∧
    KillAction.xKillClient 7 ≠ KillAction.sendDeleteMessage 7 := by
  decide

/-- C7 (amended): `killclient` with no selected client is a no-op; with a
selected client it always issues `XKillClient` against that client's
window, regardless of whether the client lists `WM_DELETE_WINDOW` in
`WM_PROTOCOLS`. -/
theorem killclient_behavior (c : KClient) :
    killclient none = KillAction.noop ∧
    killclient (some c) = KillAction.xKillClient c.win :=
  ⟨rfl, rfl⟩

/-- An early exit of `main` through `die`: the message, whether it goes to
stderr, and the process exit status. -/
structure ExitOutcome where
  message : String
  toStderr : Bool
  code : Nat
deriving DecidableEq, Repr

/-- `main`'s argument handling (dwm.c): `if (argc == 2 &&
!strcmp("-v", argv[1])) die("dwm-minimal-1.0\n"); else if (argc != 1)
die("usage: dwm [-v]\n");`, where `die` prints to stderr via
`vfprintf(stderr, ...)` and always calls `exit(1)`.  `args` is
`argv[1..]`; `none` means `main` continues past the argument check. -/
def mainArgsCheck (args : List String) : Option ExitOutcome :=
  if args = ["-v"] then some ⟨"dwm-minimal-1.0\n", true, 1⟩
  else if args ≠ [] then some ⟨"usage: dwm [-v]\n", true, 1⟩
  else none

/-- C9 counterexample: `-v` prints the version string but exits with
status 1 (`die` always exits 1), not status 0 as the claim states. -/
theorem mainArgs_claim_cex :
    mainArgsCheck ["-v"] = some ⟨"dwm-minimal-1.0\n", true, 1⟩ ∧
    (1 : Nat) ≠ 0 := by
  exact ⟨rfl, by decide⟩

/-- C9 (amended): invoked with the single argument `-v`, the program
prints the version string to stderr and exits with status 1 (`die`
always exits 1); invoked with any other non-empty argument list it
prints the usage message to stderr and exits with status 1; with no
arguments it proceeds. -/
theorem mainArgs_behavior (args : List String) :
    (args = ["-v"] →
      mainArgsCheck args = some ⟨"dwm-minimal-1.0\n", true, 1⟩) ∧
    (args ≠ ["-v"] → args ≠ [] →
      mainArgsCheck args = some ⟨"usage: dwm [-v]\n", true, 1⟩) ∧
    (args = [] → mainArgsCheck args = none) := by
  refine ⟨?_, ?_, ?_⟩
  · intro h; simp [mainArgsCheck, h]
  · intro h1 h2; simp [mainArgsCheck, h1, h2]
  · intro h; simp [mainArgsCheck, h]

/-- C9 witness: the three argument shapes evaluated concretely. -/
theorem mainArgs_behavior_witness :
    mainArgsCheck ["-v"] = some ⟨"dwm-minimal-1.0\n", true, 1⟩ ∧
    mainArgsCheck ["-x"] = some ⟨"usage: dwm [-v]\n", true, 1⟩ ∧
    mainArgsCheck [] = none :=
  ⟨(mainArgs_behavior ["-v"]).1 rfl,
   (mainArgs_behavior ["-x"]).2.1 (by decide) (by decide),
   (mainArgs_behavior []).2.2 rfl⟩

/-- A client as the stack list sees it: its identity (standing for the C
pointer) and its tag mask. -/
structure SClient where
  id : Nat
  tags : Nat
deriving DecidableEq, Repr

/-- `ISVISIBLE(C)` (dwm.c): `C->tags & C->mon->tagset[C->mon->seltags]`,
as a Boolean against the monitor's live view mask. -/
def ISVISIBLE (c : SClient) (curTagset : Nat) : Bool :=
  c.tags &&& curTagset ≠ 0

/-- The pointer-walk removal loop of `detachstack`
(`for (tc = &c->mon->stack; *tc && *tc != c; tc = &(*tc)->snext);
*tc = c->snext;`): unlink the first occurrence of `c`. -/
def detachstackRemove (c : SClient) : List SClient → List SClient
  | [] => []
  | x :: xs => if x.id = c.id then xs else x :: detachstackRemove c xs

/-- `detachstack` (dwm.c): remove `c` from the monitor's stack; when `c`
was `mon->sel`, rescan the (now shortened) stack for its first visible
client and make that the selection (`NULL`/`none` when there is none). -/
def detachstack (c : SClient) (stack : List SClient) (sel : Option Nat)
    (curTagset : Nat) : List SClient × Option Nat :=
  let stack1 := detachstackRemove c stack
  let sel1 :=
    if sel = some c.id then
      (stack1.find? (fun t => ISVISIBLE t curTagset)).map (fun t => t.id)
    else sel
  (stack1, sel1)

theorem detachstackRemove_map_id (c : SClient) (stack : List SClient) :
    (detachstackRemove c stack).map (fun t => t.id) =
      (stack.map (fun t => t.id)).erase c.id := by
  induction stack with
  | nil => rfl
  | cons x xs ih =>
    by_cases h : x.id = c.id
    · simp [detachstackRemove, h, List.erase_cons]
    · simp [detachstackRemove, h, List.erase_cons, ih]

/-- C5: for a client `c` on its monitor's stack list (client identities
are distinct, as they stand for distinct C pointers), `detachstack`
removes `c` from the list — the remaining identities are exactly the old
ones with `c.id` erased, and no remaining entry carries `c.id` — and when
`c` was `mon->sel`, the new selection is the first visible client of the
remaining stack (or `none` when no visible client remains); an unrelated
selection is untouched. -/
theorem detachstack_spec (c : SClient) (stack : List SClient)
    (sel : Option Nat) (curTagset : Nat)
    (hmem : c ∈ stack) (hnodup : (stack.map (fun t => t.id)).Nodup) :
    ((detachstack c stack sel curTagset).1.map (fun t => t.id) =
        (stack.map (fun t => t.id)).erase c.id) ∧
    (∀ t ∈ (detachstack c stack sel curTagset).1, t.id ≠ c.id) ∧
    (sel = some c.id →
      (detachstack c stack sel curTagset).2 =
        ((detachstack c stack sel curTagset).1.find?
          (fun t => ISVISIBLE t curTagset)).map (fun t => t.id)) ∧
    (sel ≠ some c.id → (detachstack c stack sel curTagset).2 = sel) := by
  refine ⟨detachstackRemove_map_id c stack, ?_, ?_, ?_⟩
  · intro t ht heq
    have htid : t.id ∈ (detachstackRemove c stack).map (fun t => t.id) :=
      List.mem_map_of_mem _ ht
    rw [detachstackRemove_map_id, hnodup.mem_erase_iff] at htid
    exact htid.1 (by rw [heq])
  · intro hsel
    simp only [detachstack, if_pos hsel]
  · intro hsel
    simp only [detachstack, if_neg hsel]

/-- C5 witness: stack `[⟨1,1⟩, ⟨2,2⟩, ⟨3,1⟩]`, view mask `2`, detaching
the selected client `⟨1,1⟩`: the remaining stack is `[⟨2,2⟩, ⟨3,1⟩]` and
the selection advances to client `2`, the first visible one. -/
theorem detachstack_spec_witness :
    ((detachstack ⟨1, 1⟩ [⟨1, 1⟩, ⟨2, 2⟩, ⟨3, 1⟩] (some 1) 2).1.map
        (fun t => t.id) =
      ([⟨1, 1⟩, ⟨2, 2⟩, ⟨3, 1⟩].map (fun t : SClient => t.id)).erase 1) ∧
    (∀ t ∈ (detachstack ⟨1, 1⟩ [⟨1, 1⟩, ⟨2, 2⟩, ⟨3, 1⟩] (some 1) 2).1,
      t.id ≠ 1) ∧
    (some 1 = some (1 : Nat) →
      (detachstack ⟨1, 1⟩ [⟨1, 1⟩, ⟨2, 2⟩, ⟨3, 1⟩] (some 1) 2).2 =
        ((detachstack ⟨1, 1⟩ [⟨1, 1⟩, ⟨2, 2⟩, ⟨3, 1⟩] (some 1) 2).1.find?
          (fun t => ISVISIBLE t 2)).map (fun t => t.id)) ∧
    (some 1 ≠ some (1 : Nat) →
      (detachstack ⟨1, 1⟩ [⟨1, 1⟩, ⟨2, 2⟩, ⟨3, 1⟩] (some 1) 2).2 = some 1) :=
  detachstack_spec ⟨1, 1⟩ [⟨1, 1⟩, ⟨2, 2⟩, ⟨3, 1⟩] (some 1) 2
    (by decide) (by decide)

/-- A client as the layout code sees it: identity, geometry `(x, y, w, h)`,
border width `bw`, tag mask, floating flag. -/
structure TClient where
  id : Nat
  x : Int
  y : Int
  w : Int
  h : Int
  bw : Int
  tags : Nat
  isfloating : Bool
deriving DecidableEq, Repr

/-- `HEIGHT(X)` (dwm.c): `(X)->h + 2 * (X)->bw`. -/
def HEIGHT (c : TClient) : Int := c.h + 2 * c.bw

/-- `resize` (dwm.c): `if (w <= 0 || h <= 0) return;` then store the new
geometry and issue `XMoveResizeWindow` plus a synthetic `ConfigureNotify`
(`configure(c)`).  The Boolean records whether any configure request was
issued. -/
def resize (c : TClient) (x y w h : Int) (interact : Bool) : TClient × Bool :=
  if w ≤ 0 ∨ h ≤ 0 then (c, false)
  else ({ c with x := x, y := y, w := w, h := h }, true)

/-- C10: `resize` with a non-positive requested width or height returns
immediately: the client's stored geometry is unchanged and no configure
request is issued, so layout arithmetic that produces a non-positive cell
never corrupts client geometry. -/
theorem resize_rejects_nonpositive (c : TClient) (x y w h : Int)
    (interact : Bool) (hwh : w ≤ 0 ∨ h ≤ 0) :
    resize c x y w h interact = (c, false) := by
  simp only [resize, if_pos hwh]

/-- C10 witness: a zero-width request on a concrete client. -/
theorem resize_rejects_nonpositive_witness :
    resize ⟨1, 0, 0, 10, 10, 1, 1, false⟩ 5 5 0 10 false =
      (⟨1, 0, 0, 10, 10, 1, 1, false⟩, false) :=
  resize_rejects_nonpositive ⟨1, 0, 0, 10, 10, 1, 1, false⟩ 5 5 0 10 false
    (Or.inl (by decide))

/-- A monitor as the tile layout sees it: window area, `mfact` (`float`,
modelled over `ℚ`), `nmaster`, the live view mask, and the client list
(arrangement order, head first). -/
structure TMonitor where
  wx : Int
  wy : Int
  ww : Int
  wh : Int
  mfact : ℚ
  nmaster : Nat
  curTagset : Nat
  clients : List TClient
deriving DecidableEq, Repr

/-- The predicate behind `nexttiled` (dwm.c): skip clients that are
floating or not visible, so iterating `nexttiled` over the client list
enumerates exactly this filtered sublist. -/
def isTiled (m : TMonitor) (c : TClient) : Bool :=
  !c.isfloating && (c.tags &&& m.curTagset ≠ 0)

/-- The loop body of `tile` (dwm.c), walking the tiled clients with index
`i` and the two accumulators `my` (master column) and `ty` (stack column);
returns each client as updated by its `resize` call.  `n` and `nmas` are
the tiled-client count and `m->nmaster`; both loops' arithmetic is on
non-negative quantities here, so `Int` models the C `unsigned` exactly. -/
def tileLoop (wx wy ww wh : Int) (mw : Int) (n nmas : Nat) :
    Nat → Int → Int → List TClient → List TClient
  | _, _, _, [] => []
  | i, my, ty, c :: cs =>
    if i < nmas then
      let h := (wh - my) / ((min n nmas : Nat) - (i : Int))
      let c1 := (resize c wx (wy + my) (mw - 2 * c.bw) (h - 2 * c.bw) false).1
      c1 :: tileLoop wx wy ww wh mw n nmas (i + 1) (my + HEIGHT c1) ty cs
    else
      let h := (wh - ty) / ((n : Int) - (i : Int))
      let c1 := (resize c (wx + mw) (wy + ty) (ww - mw - 2 * c.bw)
        (h - 2 * c.bw) false).1
      c1 :: tileLoop wx wy ww wh mw n nmas (i + 1) my (ty + HEIGHT c1) cs

/-- `tile` (dwm.c): count the tiled clients; when none, do nothing;
compute the master width `mw` (`m->ww * m->mfact` is a `float` product
truncated on assignment to `unsigned int mw`, i.e. `Rat.floor` for these
non-negative values); run the master/stack loop.  The result is the list
of tiled clients with their post-`resize` geometries (non-tiled clients
are never touched by `tile`). -/
def tile (m : TMonitor) : List TClient :=
  let tcs := m.clients.filter (isTiled m)
  let n := tcs.length
  if n = 0 then []
  else
    let mw : Int :=
      if n > m.nmaster then
        (if m.nmaster ≠ 0 then Rat.floor ((m.ww : ℚ) * m.mfact) else 0)
      else m.ww
    tileLoop m.wx m.wy m.ww m.wh mw n m.nmaster 0 0 0 tcs

/-- `applyrules` (dwm.c): `c->tags = c->mon->tagset[c->mon->seltags];`
combined with `manage`'s initialisation (`c->bw = borderpx`, geometry from
the window attributes, `calloc` zeroing `isfloating`). -/
def manageClient (borderpx : Int) (curTagset : Nat) (id : Nat)
    (wax way waw wah : Int) : TClient :=
  { id := id, x := wax, y := way, w := waw, h := wah,
    bw := borderpx, tags := curTagset, isfloating := false }

/-- `manage` + `attach` (dwm.c): the new client is prepended to the
monitor's client list. -/
def manage (m : TMonitor) (borderpx : Int) (id : Nat)
    (wax way waw wah : Int) : TMonitor :=
  { m with clients :=
      manageClient borderpx m.curTagset id wax way waw wah :: m.clients }

/-- The monitor of the C2 scenario: window area 1000×800 at the origin,
`mfact = 0.55`, `nmaster = 1`, viewing tag mask 1, no clients yet. -/
def scenarioMon : TMonitor :=
  { wx := 0, wy := 0, ww := 1000, wh := 800, mfact := 11/20,
    nmaster := 1, curTagset := 1, clients := [] }

/-- The C2 scenario after mapping W1 (id 1) then W2 (id 2) with
`borderpx = 1` (the pre-`arrange` geometry from the map request is
irrelevant; 100×100 at the origin is used). -/
def scenarioMon2 : TMonitor :=
  manage (manage scenarioMon 1 1 0 0 100 100) 1 2 0 0 100 100

/-- C2 counterexample: in the scenario (1000×800, `mfact = 0.55`,
`nmaster = 1`, `bw = 1`, W1 mapped then W2), `tile` places W1 (id 1) at
`(550, 0, 448, 798)` — in the stack column, not at `(0, 0, 548, 798)` as
the claim states — because `attach` prepends, making W2 the first client
in client-list order. -/
theorem scenario_mw_eq : Rat.floor ((((1000 : Int) : ℚ)) * (11/20)) = 550 := by
  norm_num [Rat.floor]

theorem scenario_tile_eq_tileLoop :
    tile scenarioMon2 =
      tileLoop 0 0 1000 800 (Rat.floor ((((1000 : Int) : ℚ)) * (11/20))) 2 1 0 0 0
        [manageClient 1 1 2 0 0 100 100, manageClient 1 1 1 0 0 100 100] := rfl

theorem tile_two_clients_claim_cex :
    ((tile scenarioMon2).find? (fun c => c.id = 1)) =
      some ⟨1, 550, 0, 448, 798, 1, 1, false⟩ ∧
    (550 : Int) ≠ 0 := by
  constructor
  · rw [scenario_tile_eq_tileLoop, scenario_mw_eq]; decide
  · decide

/-- C2 (amended): in the scenario (window area 1000×800, `mfact = 0.55`,
`nmaster = 1`, border width 1, W1 mapped then W2), the client list is
`[W2, W1]` because `attach` prepends, so `tile` puts W2 — the first
`min(n, nmaster)` = 1 client in client-list order — in the master column
at `(0, 0, 548, 798)` (cell `x = wx`, width `mw = ⌊ww * mfact⌋ = 550`,
row height `(wh - 0) / 1 = 800`, minus `2*bw` each way) and W1 in the
stack column at `(550, 0, 448, 798)` (cell `x = wx + mw`, width
`ww - mw = 450`, height 800, minus `2*bw`). -/
theorem tile_two_clients :
    tile scenarioMon2 =
      [⟨2, 0, 0, 548, 798, 1, 1, false⟩,
       ⟨1, 550, 0, 448, 798, 1, 1, false⟩] := by
  rw [scenario_tile_eq_tileLoop, scenario_mw_eq]; decide

end Dwm
